import Mathlib

/-!
Verification development for the retell-backend appointment service
(`src/index.mjs`, version tag FINAL_STABLE_V1).

Shallow embedding conventions:

* Instants are modelled as `Int` milliseconds since the Unix epoch
  (luxon `DateTime` values compare and subtract by their millisecond
  timestamp, which is what the source relies on).
* An IANA timezone is modelled as a fixed UTC offset in minutes
  (`localMs offset ms = ms + offset*60000`); daylight-saving
  transitions are not modelled, none of the verified properties
  depends on them.  `timezone` fields therefore hold the offset.
* Wall-clock fields (`weekday`, `hour`, `minute`) are derived from the
  local millisecond value exactly as a proleptic-Gregorian calendar
  does: epoch day 0 (1970-01-01) is a Thursday, luxon numbers weekdays
  1 = Monday .. 7 = Sunday.
* ISO strings never travel through the model: an ISO rendering of a
  `DateTime` in a zone round-trips to the same instant when reparsed
  in that zone, so timestamps are passed around as their instants.
* Request fields that the source checks for JavaScript truthiness are
  `Option` values; `none` models an absent (or empty, hence falsy)
  field.  The one place where the empty string matters — the
  `client_id` body field of `enforceClientIdMatch` — models the
  truthiness test explicitly.
* The Supabase row store is modelled as explicit state (`Db`); the
  Google calendar is modelled as explicit state (`Calendar`) whose
  mutating operations can be made to fail through environment flags
  (`insertFails`, `deleteFails`), standing for network/API failures.
* Every tool endpoint returns a `StepOut` carrying the HTTP response,
  the updated store, the updated calendar, and a trace of the
  conflict-check and calendar calls it performed, in order.
-/

/-- Local (wall-clock) milliseconds of an instant in a fixed-offset zone. -/
def localMs (offset ms : Int) : Int := ms + offset * 60000

/-- Local epoch day of an instant, as luxon computes calendar fields. -/
def localDay (offset ms : Int) : Int := localMs offset ms / 86400000

/-- Weekday of a local epoch day, luxon numbering (1 = Monday .. 7 = Sunday);
day 0 = 1970-01-01 is a Thursday (= 4). -/
def weekdayOfDay (d : Int) : Int := (d + 3) % 7 + 1

/-- Weekday of an instant in a zone (`DateTime.weekday` in luxon). -/
def weekday (offset ms : Int) : Int := weekdayOfDay (localDay offset ms)

/-- Hour-of-day of an instant in a zone (`DateTime.hour`). -/
def hourOf (offset ms : Int) : Int := localMs offset ms % 86400000 / 3600000

/-- Minute-of-hour of an instant in a zone (`DateTime.minute`). -/
def minuteOf (offset ms : Int) : Int := localMs offset ms % 86400000 % 3600000 / 60000

/-- Instant of `dt.set({hour: h, minute: 0, second: 0, millisecond: 0})`:
same local day as `ms`, at hour `h` sharp. -/
def setHour (offset ms h : Int) : Int :=
  localDay offset ms * 86400000 + h * 3600000 - offset * 60000

/-- Business rules record, mirroring the object built by
`getDefaultBusinessRules` in `src/index.mjs` (timezone modelled as a
fixed UTC offset in minutes; the lunch hours are nullable there, hence
`Option`). -/
structure BusinessRules where
  timezone : Int
  allow_weekends : Bool
  start_hour : Int
  end_hour : Int
  lunch_start_hour : Option Int
  lunch_end_hour : Option Int
  step_minutes : Int
deriving DecidableEq

/-- Mirror of `getDefaultBusinessRules(timezone)` (src/index.mjs:163-173). -/
def getDefaultBusinessRules (timezone : Int) : BusinessRules :=
  { timezone := timezone
    allow_weekends := false
    start_hour := 9
    end_hour := 17
    lunch_start_hour := some 12
    lunch_end_hour := some 13
    step_minutes := 15 }

/-- Result of `validateAgainstBusinessRules`: `{ok:true}` or
`{ok:false, error}`. -/
inductive RuleCheck where
  | ok
  | err (error : String)
deriving DecidableEq

/-- Mirror of `validateAgainstBusinessRules({startISO, endISO, rules})`
(src/index.mjs:175-206).  The `Option Int` inputs are the parsed
instants; `none` models an unparseable ISO string (luxon invalid
`DateTime`).  The source compares `start.hour + start.minute/60`
against the integer rule hours; that comparison is encoded exactly in
minutes (`hour*60 + minute` against `rule_hour*60`).  The lunch-window
test uses luxon `Interval.overlaps`, i.e. half-open overlap
`lunch.start < slot.end && lunch.end > slot.start`. -/
def validateAgainstBusinessRules (startISO endISO : Option Int) (rules : BusinessRules) :
    RuleCheck :=
  match startISO, endISO with
  | some start, some endv =>
    if endv ≤ start then .err "end_time must be after start_time"
    else if rules.allow_weekends = false ∧
        (weekday rules.timezone start = 6 ∨ weekday rules.timezone start = 7) then
      .err "Closed on weekends"
    else if hourOf rules.timezone start * 60 + minuteOf rules.timezone start <
          rules.start_hour * 60 ∨
        hourOf rules.timezone endv * 60 + minuteOf rules.timezone endv >
          rules.end_hour * 60 then
      .err "Outside business hours"
    else
      match rules.lunch_start_hour, rules.lunch_end_hour with
      | some lsh, some leh =>
        if leh > lsh then
          if setHour rules.timezone start lsh < endv ∧
              setHour rules.timezone start leh > start then
            .err "Conflicts with lunch break"
          else .ok
        else .ok
      | _, _ => .ok
  | _, _ => .err "Invalid start/end time"

/-- Whether a `RuleCheck` is `{ok:true}`. -/
def RuleCheck.isOk : RuleCheck → Bool
  | .ok => true
  | .err _ => false

/-- A generated availability slot (`{start_time, end_time}`), carrying
the instants; the route renders them as ISO strings in the tenant's
zone, which round-trip to the same instants. -/
structure Slot where
  start_time : Int
  end_time : Int
deriving DecidableEq

/-- An event of the external Google calendar (`events.list` item /
free-busy source): its id, status (`"cancelled"` events are skipped by
the availability route) and instants. -/
structure CalEvent where
  id : Nat
  status : String
  start_ms : Int
  end_ms : Int
deriving DecidableEq

/-- The candidate loop of the check-availability route
(src/index.mjs:411-424): step `t` from day start while
`t + durMs ≤ dayEnd`, validate the candidate against the business
rules, skip it when a busy block overlaps (`t < b.end && t + durMs >
b.start`), else emit it.  The `while` loop is embedded with a fuel
argument (structural recursion); the caller supplies fuel bounding the
iteration count, and the loop guard is re-checked each step, so
adequate fuel reproduces the loop exactly. -/
def slotsLoop (rules : BusinessRules) (busy : List (Int × Int)) (dayEndMs durMs stepMs : Int) :
    Nat → Int → List Slot
  | 0, _ => []
  | fuel + 1, t =>
    if t + durMs ≤ dayEndMs then
      let rest := slotsLoop rules busy dayEndMs durMs stepMs fuel (t + stepMs)
      match validateAgainstBusinessRules (some t) (some (t + durMs)) rules with
      | .err _ => rest
      | .ok =>
        if busy.any (fun b => decide (t < b.2) && decide (t + durMs > b.1)) then rest
        else { start_time := t, end_time := t + durMs } :: rest
    else []

/-- Slot generation of POST /tools/check-availability
(src/index.mjs:373-424), for a tenant's default business rules:
day start/end at `start_hour`/`end_hour` local on `date` (a local
epoch day); an empty sequence when the day is a weekend and weekends
are disallowed; busy blocks from the listed calendar events that are
not cancelled; then the candidate loop. -/
def generateSlots (timezone : Int) (date : Int) (duration_minutes : Int)
    (events : List CalEvent) : List Slot :=
  let rules := getDefaultBusinessRules timezone
  let dayStart := date * 86400000 + rules.start_hour * 3600000 - rules.timezone * 60000
  let dayEnd := date * 86400000 + rules.end_hour * 3600000 - rules.timezone * 60000
  if rules.allow_weekends = false ∧
      (weekday rules.timezone dayStart = 6 ∨ weekday rules.timezone dayStart = 7) then
    []
  else
    let busy := (events.filter (fun e => e.status != "cancelled")).map
      (fun e => (e.start_ms, e.end_ms))
    let durMs := duration_minutes * 60000
    let stepMs := rules.step_minutes * 60000
    let fuel := ((dayEnd - dayStart - durMs) / stepMs).toNat + 1
    slotsLoop rules busy dayEnd durMs stepMs fuel dayStart

/-- A row of the `appointments` table as written by the routes
(src/index.mjs:489-506, 631-649). -/
structure Appointment where
  id : Nat
  client_id : String
  customer_name : Option String
  customer_email : Option String
  customer_phone : Option String
  start_time : Int
  end_time : Int
  timezone : Int
  status : String
  google_calendar_id : String
  google_event_id : Option Nat
  previous_appointment_id : Option Nat
  title : String
  notes : Option String
deriving DecidableEq

/-- A tool response body.  Success shapes follow the objects built by
the routes; `err status error` models `res.status(status).json({ok:
false, error})`. -/
inductive ToolResponse where
  | bookOk (appointment_id : Nat) (google_event_id : Nat) (start_time end_time : Int)
  | cancelOk (cancelled_appointment_id : Nat)
  | reschedOk (old_appointment_id new_appointment_id new_google_event_id : Nat)
  | availOk (slots : List Slot)
  | findOk (rows : List Appointment)
  | err (status : Nat) (error : String)
deriving DecidableEq

/-- A row of the `tool_idempotency` table, unique on
(client_id, tool_name, idempotency_key). -/
structure IdemRecord where
  client_id : String
  tool_name : String
  idempotency_key : String
  response : ToolResponse
deriving DecidableEq

/-- The Supabase store state: the `appointments` and `tool_idempotency`
tables, plus the next store-assigned appointment id. -/
structure Db where
  appointments : List Appointment
  tool_idempotency : List IdemRecord
  nextApptId : Nat
deriving DecidableEq

/-- The external Google calendar: its events, the next event id it will
assign, and environment flags making its mutating calls fail (modelling
network/API errors, which the source surfaces via thrown exceptions). -/
structure Calendar where
  events : List CalEvent
  nextEventId : Nat
  insertFails : Bool
  deleteFails : Bool
deriving DecidableEq

/-- Tags of the conflict-check and external-calendar calls a route
performs, recorded in order. -/
inductive CallTag where
  | storeOverlap
  | calFreeBusy
  | calInsert
  | calDelete
  | calList
deriving DecidableEq

/-- Output of one tool-route invocation: the response, the resulting
store and calendar states, and the ordered call trace. -/
structure StepOut where
  resp : ToolResponse
  db : Db
  cal : Calendar
  trace : List CallTag
deriving DecidableEq

/-- Mirror of `isFreeInGoogleCalendar` (src/index.mjs:209-220): the
free/busy query reports no busy block over the window.  Busy blocks
come from the calendar's non-cancelled events overlapping the window. -/
def isFreeInGoogleCalendar (cal : Calendar) (startMs endMs : Int) : Bool :=
  !(cal.events.any fun ev =>
    ev.status != "cancelled" && decide (ev.start_ms < endMs) && decide (ev.end_ms > startMs))

/-- Mirror of `calendar.events.insert` (used at src/index.mjs:471-487 and
611-627): on success the calendar assigns the next event id. -/
def calendarInsertEvent (cal : Calendar) (startMs endMs : Int) :
    Except String (Nat × Calendar) :=
  if cal.insertFails then .error "calendar insert failed"
  else
    .ok (cal.nextEventId,
      { cal with
        events := cal.events ++ [{ id := cal.nextEventId, status := "confirmed",
                                   start_ms := startMs, end_ms := endMs }]
        nextEventId := cal.nextEventId + 1 })

/-- Mirror of `calendar.events.delete` (src/index.mjs:543, 607). -/
def calendarDeleteEvent (cal : Calendar) (eid : Nat) : Except String Calendar :=
  if cal.deleteFails then .error "calendar delete failed"
  else .ok { cal with events := cal.events.filter (fun ev => ev.id != eid) }

/-- Mirror of `hasOverlapInSupabase` (src/index.mjs:222-237): any
`booked` appointment of the tenant with
`existing.start < new_end && existing.end > new_start`, optionally
excluding one appointment id. -/
def hasOverlapInSupabase (db : Db) (client_id : String) (startMs endMs : Int)
    (ignoreAppointmentId : Option Nat) : Bool :=
  decide (0 < (db.appointments.filter (fun a =>
    a.client_id == client_id && a.status == "booked" &&
    decide (a.start_time < endMs) && decide (a.end_time > startMs) &&
    (match ignoreAppointmentId with
     | some i => a.id != i
     | none => true))).length)

/-- Mirror of `getIdempotentResponse` (src/index.mjs:241-254): `null`
for an absent key, else the stored response for the
(client_id, tool_name, idempotency_key) triple, if any. -/
def getIdempotentResponse (db : Db) (client_id tool_name : String)
    (idempotency_key : Option String) : Option ToolResponse :=
  match idempotency_key with
  | none => none
  | some k =>
    (db.tool_idempotency.find? fun r =>
      r.client_id == client_id && r.tool_name == tool_name &&
      r.idempotency_key == k).map (·.response)

/-- Upsert on the unique (client_id, tool_name, idempotency_key)
conflict target. -/
def upsertIdem : List IdemRecord → IdemRecord → List IdemRecord
  | [], r => [r]
  | x :: xs, r =>
    if x.client_id == r.client_id && x.tool_name == r.tool_name &&
        x.idempotency_key == r.idempotency_key then
      r :: xs
    else x :: upsertIdem xs r

/-- Mirror of `saveIdempotentResponse` (src/index.mjs:256-262): no-op
for an absent key, else upsert of the record. -/
def saveIdempotentResponse (db : Db) (client_id tool_name : String)
    (idempotency_key : Option String) (response : ToolResponse) : Db :=
  match idempotency_key with
  | none => db
  | some k =>
    { db with tool_idempotency :=
        (upsertIdem db.tool_idempotency
          { client_id := client_id, tool_name := tool_name,
            idempotency_key := k, response := response }) }

/-- Load of a single appointment by id for a tenant
(`.select("*").eq("id", ...).eq("client_id", ...).single()`,
src/index.mjs:532-537, 589-594): `.single()` succeeds exactly when one
row matches. -/
def selectAppointment (db : Db) (appointment_id : Nat) (client_id : String) :
    Option Appointment :=
  match db.appointments.filter
      (fun a => a.id == appointment_id && a.client_id == client_id) with
  | [a] => some a
  | _ => none

/-- Status update `update({status}).eq("id", id)` (src/index.mjs:546, 629). -/
def updateAppointmentStatus (db : Db) (id : Nat) (status : String) : Db :=
  { db with appointments :=
      (db.appointments.map
        (fun a => if a.id == id then { a with status := status } else a)) }

/-- Insert of an appointment row with a store-assigned id
(`.insert(...).select().single()`). -/
def insertAppointment (db : Db) (row : Nat → Appointment) : Appointment × Db :=
  let a := row db.nextApptId
  (a, { db with appointments := db.appointments ++ [a], nextApptId := db.nextApptId + 1 })

/-- Mirror of `enforceClientIdMatch` (src/index.mjs:128-134): the check
fires only when the body's `client_id` is truthy (a non-empty string)
and differs from the token-locked client id; it returns `false` when
the request must be rejected with 403. -/
def enforceClientIdMatch (client_id : String) (body_client_id : Option String) : Bool :=
  match body_client_id with
  | some bc => if bc != "" && bc != client_id then false else true
  | none => true

/-- Body of POST /tools/book-appointment.  `none` models an absent (or
falsy) field; timestamps are the instants the ISO strings parse to. -/
structure BookReq where
  client_id : Option String
  start_time : Option Int
  end_time : Option Int
  timezone : Int
  title : String
  customer_name : Option String
  customer_email : Option String
  customer_phone : Option String
  notes : Option String
  idempotency_key : Option String
deriving DecidableEq

/-- Body of POST /tools/cancel-appointment. -/
structure CancelReq where
  client_id : Option String
  appointment_id : Option Nat
  idempotency_key : Option String
deriving DecidableEq

/-- Body of POST /tools/reschedule-appointment. -/
structure ReschedReq where
  client_id : Option String
  appointment_id : Option Nat
  new_start_time : Option Int
  new_end_time : Option Int
  timezone : Int
  new_title : Option String
  notes : Option String
  idempotency_key : Option String
deriving DecidableEq

/-- Body of POST /tools/check-availability (`date` as a local epoch
day). -/
structure AvailReq where
  client_id : Option String
  date : Option Int
  duration_minutes : Int
  timezone : Int
deriving DecidableEq

/-- Body of POST /tools/find-appointment (`from_date`/`to_date` as
local epoch days). -/
structure FindReq where
  client_id : Option String
  customer_phone : Option String
  customer_email : Option String
  from_date : Option Int
  to_date : Option Int
  timezone : Int
  limit : Nat
deriving DecidableEq

/-- Mirror of POST /tools/book-appointment (src/index.mjs:434-517).
The guards run in source order: client-id match, missing
start/end times, missing idempotency key, idempotency short-circuit,
business-rule validation, store overlap check, calendar free/busy
check, calendar event insert, appointment row insert, idempotency
record save. -/
def book (client_id : String) (req : BookReq) (db : Db) (cal : Calendar) : StepOut :=
  if enforceClientIdMatch client_id req.client_id = false then
    { resp := .err 403 "client_id does not match token", db := db, cal := cal, trace := [] }
  else
    match req.start_time, req.end_time with
    | some start_time, some end_time =>
      match req.idempotency_key with
      | none =>
        { resp := .err 400 "Missing idempotency_key", db := db, cal := cal, trace := [] }
      | some _ =>
        match getIdempotentResponse db client_id "book-appointment" req.idempotency_key with
        | some prev => { resp := prev, db := db, cal := cal, trace := [] }
        | none =>
          let rules := getDefaultBusinessRules req.timezone
          match validateAgainstBusinessRules (some start_time) (some end_time) rules with
          | .err m => { resp := .err 400 m, db := db, cal := cal, trace := [] }
          | .ok =>
            if hasOverlapInSupabase db client_id start_time end_time none then
              { resp := .err 409 "Time slot already booked", db := db, cal := cal,
                trace := [.storeOverlap] }
            else if isFreeInGoogleCalendar cal start_time end_time = false then
              { resp := .err 409 "Time slot is busy in calendar", db := db, cal := cal,
                trace := [.storeOverlap, .calFreeBusy] }
            else
              match calendarInsertEvent cal start_time end_time with
              | .error m =>
                { resp := .err 500 m, db := db, cal := cal,
                  trace := [.storeOverlap, .calFreeBusy, .calInsert] }
              | .ok (google_event_id, cal') =>
                let ins := insertAppointment db (fun i =>
                  { id := i, client_id := client_id,
                    customer_name := req.customer_name,
                    customer_email := req.customer_email,
                    customer_phone := req.customer_phone,
                    start_time := start_time, end_time := end_time,
                    timezone := req.timezone, status := "booked",
                    google_calendar_id := "primary",
                    google_event_id := some google_event_id,
                    previous_appointment_id := none,
                    title := req.title, notes := req.notes })
                let response := ToolResponse.bookOk ins.1.id google_event_id
                  start_time end_time
                { resp := response,
                  db := saveIdempotentResponse ins.2 client_id "book-appointment"
                    req.idempotency_key response,
                  cal := cal',
                  trace := [.storeOverlap, .calFreeBusy, .calInsert] }
    | _, _ =>
      { resp := .err 400 "Missing start_time/end_time", db := db, cal := cal, trace := [] }

/-- Mirror of POST /tools/cancel-appointment (src/index.mjs:520-555).
A failing `.single()` load surfaces as the catch-all 500; a failing
calendar delete aborts before any store write. -/
def cancel (client_id : String) (req : CancelReq) (db : Db) (cal : Calendar) : StepOut :=
  if enforceClientIdMatch client_id req.client_id = false then
    { resp := .err 403 "client_id does not match token", db := db, cal := cal, trace := [] }
  else
    match req.appointment_id with
    | none =>
      { resp := .err 400 "Missing appointment_id", db := db, cal := cal, trace := [] }
    | some appointment_id =>
      match req.idempotency_key with
      | none =>
        { resp := .err 400 "Missing idempotency_key", db := db, cal := cal, trace := [] }
      | some _ =>
        match getIdempotentResponse db client_id "cancel-appointment" req.idempotency_key with
        | some prev => { resp := prev, db := db, cal := cal, trace := [] }
        | none =>
          match selectAppointment db appointment_id client_id with
          | none =>
            { resp := .err 500 "appointment not found", db := db, cal := cal, trace := [] }
          | some appt =>
            match appt.google_event_id with
            | some geid =>
              match calendarDeleteEvent cal geid with
              | .error m =>
                { resp := .err 500 m, db := db, cal := cal, trace := [.calDelete] }
              | .ok cal' =>
                let db' := updateAppointmentStatus db appt.id "cancelled"
                let response := ToolResponse.cancelOk appt.id
                { resp := response,
                  db := saveIdempotentResponse db' client_id "cancel-appointment"
                    req.idempotency_key response,
                  cal := cal', trace := [.calDelete] }
            | none =>
              let db' := updateAppointmentStatus db appt.id "cancelled"
              let response := ToolResponse.cancelOk appt.id
              { resp := response,
                db := saveIdempotentResponse db' client_id "cancel-appointment"
                  req.idempotency_key response,
                cal := cal, trace := [] }

/-- Truthiness fallback chain for the rescheduled event title
(`new_title || oldAppt.title || "Appointment (Rescheduled)"`,
src/index.mjs:614, 645): an empty string is falsy. -/
def rescheduledTitle (new_title : Option String) (oldTitle : String) : String :=
  match new_title with
  | some t =>
    if t != "" then t
    else if oldTitle != "" then oldTitle else "Appointment (Rescheduled)"
  | none => if oldTitle != "" then oldTitle else "Appointment (Rescheduled)"

/-- Mirror of POST /tools/reschedule-appointment (src/index.mjs:558-664).
Guards in source order; the old event is deleted only after the store
overlap check (excluding the old row's id) and the calendar free/busy
check both pass; the old row is marked `rescheduled` and a new row is
inserted with `previous_appointment_id` pointing at it. -/
def reschedule (client_id : String) (req : ReschedReq) (db : Db) (cal : Calendar) :
    StepOut :=
  if enforceClientIdMatch client_id req.client_id = false then
    { resp := .err 403 "client_id does not match token", db := db, cal := cal, trace := [] }
  else
    match req.appointment_id with
    | none =>
      { resp := .err 400 "Missing appointment_id", db := db, cal := cal, trace := [] }
    | some appointment_id =>
      match req.new_start_time, req.new_end_time with
      | some new_start_time, some new_end_time =>
        match req.idempotency_key with
        | none =>
          { resp := .err 400 "Missing idempotency_key", db := db, cal := cal, trace := [] }
        | some _ =>
          match getIdempotentResponse db client_id "reschedule-appointment"
              req.idempotency_key with
          | some prev => { resp := prev, db := db, cal := cal, trace := [] }
          | none =>
            let rules := getDefaultBusinessRules req.timezone
            match validateAgainstBusinessRules (some new_start_time) (some new_end_time)
                rules with
            | .err m => { resp := .err 400 m, db := db, cal := cal, trace := [] }
            | .ok =>
              match selectAppointment db appointment_id client_id with
              | none =>
                { resp := .err 500 "appointment not found", db := db, cal := cal,
                  trace := [] }
              | some oldAppt =>
                if hasOverlapInSupabase db client_id new_start_time new_end_time
                    (some oldAppt.id) then
                  { resp := .err 409 "New time slot already booked", db := db, cal := cal,
                    trace := [.storeOverlap] }
                else if isFreeInGoogleCalendar cal new_start_time new_end_time = false then
                  { resp := .err 409 "New time slot is busy in calendar", db := db,
                    cal := cal, trace := [.storeOverlap, .calFreeBusy] }
                else
                  let contAfterDelete : Calendar → List CallTag → StepOut :=
                    fun cal1 tr =>
                      match calendarInsertEvent cal1 new_start_time new_end_time with
                      | .error m =>
                        { resp := .err 500 m, db := db, cal := cal1,
                          trace := tr ++ [.calInsert] }
                      | .ok (new_google_event_id, cal2) =>
                        let titleVal := rescheduledTitle req.new_title oldAppt.title
                        let db1 := updateAppointmentStatus db oldAppt.id "rescheduled"
                        let ins := insertAppointment db1 (fun i =>
                          { id := i, client_id := client_id,
                            customer_name := oldAppt.customer_name,
                            customer_email := oldAppt.customer_email,
                            customer_phone := oldAppt.customer_phone,
                            start_time := new_start_time, end_time := new_end_time,
                            timezone := req.timezone, status := "booked",
                            google_calendar_id := "primary",
                            google_event_id := some new_google_event_id,
                            previous_appointment_id := some oldAppt.id,
                            title := titleVal, notes := req.notes })
                        let response := ToolResponse.reschedOk oldAppt.id ins.1.id
                          new_google_event_id
                        { resp := response,
                          db := saveIdempotentResponse ins.2 client_id
                            "reschedule-appointment" req.idempotency_key response,
                          cal := cal2,
                          trace := tr ++ [.calInsert] }
                  match oldAppt.google_event_id with
                  | some old_geid =>
                    match calendarDeleteEvent cal old_geid with
                    | .error m =>
                      { resp := .err 500 m, db := db, cal := cal,
                        trace := [.storeOverlap, .calFreeBusy, .calDelete] }
                    | .ok cal1 =>
                      contAfterDelete cal1 [.storeOverlap, .calFreeBusy, .calDelete]
                  | none => contAfterDelete cal [.storeOverlap, .calFreeBusy]
      | _, _ =>
        { resp := .err 400 "Missing new_start_time/new_end_time", db := db, cal := cal,
          trace := [] }

/-- Mirror of POST /tools/check-availability (src/index.mjs:360-431):
client-id match, missing-date guard, then `generateSlots` over the
calendar's events; the weekend early return happens before the
events.list call, so a weekend request performs no calendar call. -/
def checkAvailability (client_id : String) (req : AvailReq) (db : Db) (cal : Calendar) :
    StepOut :=
  if enforceClientIdMatch client_id req.client_id = false then
    { resp := .err 403 "client_id does not match token", db := db, cal := cal, trace := [] }
  else
    match req.date with
    | none =>
      { resp := .err 400 "Missing date YYYY-MM-DD", db := db, cal := cal, trace := [] }
    | some date =>
      let rules := getDefaultBusinessRules req.timezone
      let dayStart := date * 86400000 + rules.start_hour * 3600000 - rules.timezone * 60000
      if rules.allow_weekends = false ∧
          (weekday rules.timezone dayStart = 6 ∨ weekday rules.timezone dayStart = 7) then
        { resp := .availOk [], db := db, cal := cal, trace := [] }
      else
        { resp := .availOk (generateSlots req.timezone date req.duration_minutes cal.events),
          db := db, cal := cal, trace := [.calList] }

/-- Insertion sort of appointments by ascending `start_time`
(`order("start_time", { ascending: true })`). -/
def insertByStart (a : Appointment) : List Appointment → List Appointment
  | [] => [a]
  | b :: bs => if a.start_time ≤ b.start_time then a :: b :: bs else b :: insertByStart a bs

/-- Sort of appointments by ascending `start_time`. -/
def sortByStart : List Appointment → List Appointment
  | [] => []
  | a :: as_ => insertByStart a (sortByStart as_)

/-- Mirror of POST /tools/find-appointment (src/index.mjs:667-716):
requires a phone or an email; window defaults to [now, now + 30 days];
filters `booked` appointments of the token's tenant by the optional
phone/email equality filters and the start-time window, ordered by
start time ascending and capped at `limit`.  `now` is passed
explicitly. -/
def findAppointment (client_id : String) (req : FindReq) (now : Int) (db : Db)
    (cal : Calendar) : StepOut :=
  if enforceClientIdMatch client_id req.client_id = false then
    { resp := .err 403 "client_id does not match token", db := db, cal := cal, trace := [] }
  else if req.customer_phone = none ∧ req.customer_email = none then
    { resp := .err 400 "Need customer_phone or customer_email", db := db, cal := cal,
      trace := [] }
  else
    let fromISO :=
      match req.from_date with
      | some d => d * 86400000 - req.timezone * 60000
      | none => now
    let toISO :=
      match req.to_date with
      | some d => d * 86400000 + 86399999 - req.timezone * 60000
      | none => now + 30 * 86400000
    let rows := (db.appointments.filter (fun a =>
      a.client_id == client_id && a.status == "booked" &&
      decide (fromISO ≤ a.start_time) && decide (a.start_time ≤ toISO) &&
      (match req.customer_phone with
       | some p => a.customer_phone == some p
       | none => true) &&
      (match req.customer_email with
       | some e => a.customer_email == some e
       | none => true)))
    { resp := .findOk ((sortByStart rows).take req.limit), db := db, cal := cal,
      trace := [] }

/-- One tool invocation by an arbitrary caller: the token-resolved
client id plus the request body. -/
inductive Op where
  | opBook (client_id : String) (req : BookReq)
  | opCancel (client_id : String) (req : CancelReq)
  | opResched (client_id : String) (req : ReschedReq)
  | opAvail (client_id : String) (req : AvailReq)
  | opFind (client_id : String) (req : FindReq) (now : Int)

/-- State reached after one tool invocation. -/
def applyOp : Op → Db × Calendar → Db × Calendar
  | .opBook cid req, (db, cal) =>
    let out := book cid req db cal
    (out.db, out.cal)
  | .opCancel cid req, (db, cal) =>
    let out := cancel cid req db cal
    (out.db, out.cal)
  | .opResched cid req, (db, cal) =>
    let out := reschedule cid req db cal
    (out.db, out.cal)
  | .opAvail cid req, (db, cal) =>
    let out := checkAvailability cid req db cal
    (out.db, out.cal)
  | .opFind cid req now, (db, cal) =>
    let out := findAppointment cid req now db cal
    (out.db, out.cal)

/-- State reached after a sequence of tool invocations. -/
def runOps : List Op → Db × Calendar → Db × Calendar
  | [], s => s
  | op :: ops, s => runOps ops (applyOp op s)

/-- Store well-formedness: appointment ids are pairwise distinct and
below the next store-assigned id. -/
def Db.wf (db : Db) : Prop :=
  (∀ a ∈ db.appointments, a.id < db.nextApptId) ∧
  db.appointments.Pairwise (fun a b => a.id ≠ b.id)

/-- Calendar well-formedness: event ids are below the next assigned id. -/
def Calendar.wf (cal : Calendar) : Prop :=
  ∀ ev ∈ cal.events, ev.id < cal.nextEventId

/-- How one tool invocation may evolve the appointments table: the next
id never decreases, and every row whose id predates the call is an
original row whose status is unchanged or was set to `"cancelled"` or
`"rescheduled"` — never (re)set to `"booked"`. -/
def StatusEvolution (db db' : Db) : Prop :=
  db.nextApptId ≤ db'.nextApptId ∧
  ∀ a' ∈ db'.appointments, a'.id < db.nextApptId →
    ∃ a ∈ db.appointments, a.id = a'.id ∧
      (a'.status = a.status ∨ a'.status = "cancelled" ∨ a'.status = "rescheduled")

lemma saveIdem_appointments (db : Db) (cid tool : String) (key : Option String)
    (r : ToolResponse) :
    (saveIdempotentResponse db cid tool key r).appointments = db.appointments := by
  cases key <;> rfl

lemma saveIdem_nextApptId (db : Db) (cid tool : String) (key : Option String)
    (r : ToolResponse) :
    (saveIdempotentResponse db cid tool key r).nextApptId = db.nextApptId := by
  cases key <;> rfl

lemma upsertIdem_find (l : List IdemRecord) (cid tool k : String) (r : ToolResponse) :
    (upsertIdem l ⟨cid, tool, k, r⟩).find?
      (fun x => x.client_id == cid && x.tool_name == tool && x.idempotency_key == k) =
      some ⟨cid, tool, k, r⟩ := by
  induction l with
  | nil => simp [upsertIdem, List.find?]
  | cons x xs ih =>
    by_cases hc : (x.client_id == cid && x.tool_name == tool &&
        x.idempotency_key == k) = true
    · simp only [upsertIdem, hc, if_pos rfl]
      simp [List.find?]
    · rw [upsertIdem]
      simp only [hc]
      rw [if_neg (by simp_all)]
      rw [List.find?]
      simp only [hc]
      exact ih

lemma getIdem_save (db : Db) (cid tool k : String) (r : ToolResponse) :
    getIdempotentResponse (saveIdempotentResponse db cid tool (some k) r) cid tool
      (some k) = some r := by
  unfold getIdempotentResponse saveIdempotentResponse
  simp only [upsertIdem_find]
  rfl

lemma selectAppointment_spec (db : Db) (aid : Nat) (cid : String) (a : Appointment)
    (h : selectAppointment db aid cid = some a) :
    a ∈ db.appointments ∧ a.id = aid ∧ a.client_id = cid := by
  unfold selectAppointment at h
  split at h
  next x heq =>
    have hxa : x = a := by injection h
    subst hxa
    have hx : x ∈ db.appointments.filter
        (fun a => a.id == aid && a.client_id == cid) := by
      rw [heq]; exact List.mem_singleton.mpr rfl
    have := List.mem_filter.mp hx
    simpa using this
  next => exact absurd h (by simp)

lemma wf_unique_id (db : Db) (hwf : db.wf) (a b : Appointment)
    (ha : a ∈ db.appointments) (hb : b ∈ db.appointments) (hid : a.id = b.id) : a = b := by
  by_contra hne
  exact (hwf.2.forall (fun x y h => (h ∘ Eq.symm)) ha hb hne) hid

lemma SE_refl (db : Db) : StatusEvolution db db := by
  refine ⟨le_refl _, fun a' ha' _ => ⟨a', ha', rfl, Or.inl rfl⟩⟩

lemma SE_congr (db db' db'' : Db) (h : StatusEvolution db db')
    (happ : db''.appointments = db'.appointments)
    (hnext : db''.nextApptId = db'.nextApptId) : StatusEvolution db db'' := by
  refine ⟨hnext ▸ h.1, fun a' ha' hlt => h.2 a' (happ ▸ ha') hlt⟩

lemma SE_trans (db db' db'' : Db) (h1 : StatusEvolution db db')
    (h2 : StatusEvolution db' db'') : StatusEvolution db db'' := by
  refine ⟨le_trans h1.1 h2.1, fun a'' ha'' hlt => ?_⟩
  obtain ⟨a', ha', hid', hst'⟩ := h2.2 a'' ha'' (lt_of_lt_of_le hlt h1.1)
  obtain ⟨a, ha, hid, hst⟩ := h1.2 a' ha' (hid' ▸ hlt)
  refine ⟨a, ha, hid' ▸ hid, ?_⟩
  rcases hst' with h | h | h
  · rcases hst with h' | h' | h'
    · exact Or.inl (h ▸ h')
    · exact Or.inr (Or.inl (h ▸ h'))
    · exact Or.inr (Or.inr (h ▸ h'))
  · exact Or.inr (Or.inl h)
  · exact Or.inr (Or.inr h)

lemma SE_update (db : Db) (x : Nat) (s : String)
    (hs : s = "cancelled" ∨ s = "rescheduled") :
    StatusEvolution db (updateAppointmentStatus db x s) := by
  refine ⟨le_refl _, fun a' ha' _ => ?_⟩
  unfold updateAppointmentStatus at ha'
  simp only [List.mem_map] at ha'
  obtain ⟨a, ha, heq⟩ := ha'
  by_cases hx : (a.id == x) = true
  · refine ⟨a, ha, ?_, ?_⟩
    · rw [← heq]; simp [hx]
    · rw [← heq]; simp only [hx, if_pos rfl]
      rcases hs with h | h
      · exact Or.inr (Or.inl h)
      · exact Or.inr (Or.inr h)
  · refine ⟨a, ha, ?_, Or.inl ?_⟩ <;> rw [← heq] <;> simp [hx]

lemma SE_insert (db : Db) (row : Nat → Appointment) (hid : (row db.nextApptId).id = db.nextApptId) :
    StatusEvolution db (insertAppointment db row).2 := by
  unfold insertAppointment
  refine ⟨by simp, fun a' ha' hlt => ?_⟩
  simp only [List.mem_append, List.mem_singleton] at ha'
  rcases ha' with h | h
  · exact ⟨a', h, rfl, Or.inl rfl⟩
  · subst h; omega

lemma SE_eq (db db' : Db) (h : db' = db) : StatusEvolution db db' := h ▸ SE_refl db

lemma book_SE (cid : String) (req : BookReq) (db : Db) (cal : Calendar) :
    StatusEvolution db (book cid req db cal).db := by
  unfold book
  repeat' (first | split | dsimp only)
  all_goals
    first
      | exact SE_refl _
      | exact SE_congr _ _ _ (SE_insert _ _ rfl) (saveIdem_appointments _ _ _ _ _)
          (saveIdem_nextApptId _ _ _ _ _)

lemma cancel_SE (cid : String) (req : CancelReq) (db : Db) (cal : Calendar) :
    StatusEvolution db (cancel cid req db cal).db := by
  unfold cancel
  repeat' (first | split | dsimp only)
  all_goals
    first
      | exact SE_refl _
      | exact SE_congr _ _ _ (SE_update _ _ _ (Or.inl rfl)) (saveIdem_appointments _ _ _ _ _)
          (saveIdem_nextApptId _ _ _ _ _)

lemma reschedule_SE (cid : String) (req : ReschedReq) (db : Db) (cal : Calendar) :
    StatusEvolution db (reschedule cid req db cal).db := by
  unfold reschedule
  repeat' (first | split | dsimp only)
  all_goals
    first
      | exact SE_refl _
      | exact SE_congr _ _ _
          (SE_trans _ _ _ (SE_update _ _ _ (Or.inr rfl)) (SE_insert _ _ rfl))
          (saveIdem_appointments _ _ _ _ _) (saveIdem_nextApptId _ _ _ _ _)

lemma checkAvailability_db_eq (cid : String) (req : AvailReq) (db : Db) (cal : Calendar) :
    (checkAvailability cid req db cal).db = db := by
  unfold checkAvailability
  repeat' (first | split | dsimp only)

lemma findAppointment_db_eq (cid : String) (req : FindReq) (now : Int) (db : Db)
    (cal : Calendar) : (findAppointment cid req now db cal).db = db := by
  unfold findAppointment
  split
  · rfl
  · split
    · rfl
    · rfl

lemma applyOp_SE (op : Op) (db : Db) (cal : Calendar) :
    StatusEvolution db (applyOp op (db, cal)).1 := by
  cases op with
  | opBook cid req => exact book_SE cid req db cal
  | opCancel cid req => exact cancel_SE cid req db cal
  | opResched cid req => exact reschedule_SE cid req db cal
  | opAvail cid req => exact SE_eq _ _ (checkAvailability_db_eq cid req db cal)
  | opFind cid req now => exact SE_eq _ _ (findAppointment_db_eq cid req now db cal)

/-- The property "appointment `o` can never again show status `booked`":
it holds now and no tool invocation re-establishes it. -/
def NotRebooked (o : Nat) (db : Db) : Prop :=
  (∀ a ∈ db.appointments, a.id = o → a.status ≠ "booked") ∧ o < db.nextApptId

lemma NotRebooked_of_SE (o : Nat) (db db' : Db) (hP : NotRebooked o db)
    (hSE : StatusEvolution db db') : NotRebooked o db' := by
  refine ⟨fun a' ha' hid => ?_, lt_of_lt_of_le hP.2 hSE.1⟩
  obtain ⟨a, ha, haid, hst⟩ := hSE.2 a' ha' (hid ▸ hP.2)
  rcases hst with h | h | h
  · exact h ▸ hP.1 a ha (haid ▸ hid)
  · simp [h]
  · simp [h]

lemma NotRebooked_runOps (o : Nat) (ops : List Op) (db : Db) (cal : Calendar)
    (hP : NotRebooked o db) : NotRebooked o (runOps ops (db, cal)).1 := by
  induction ops generalizing db cal with
  | nil => exact hP
  | cons op ops ih =>
    rw [runOps]
    have h1 := NotRebooked_of_SE o db (applyOp op (db, cal)).1 hP (applyOp_SE op db cal)
    have : applyOp op (db, cal) = ((applyOp op (db, cal)).1, (applyOp op (db, cal)).2) := rfl
    rw [this]
    exact ih _ _ h1

/-- C7: for every interval whose end timestamp is less than or equal to
its start timestamp, `validateAgainstBusinessRules` rejects the
interval, whatever the rule settings (timezone, weekend policy, hours,
lunch window, step); the rejection is the `end_time must be after
start_time` error. -/
theorem validate_rejects_end_le_start (s e : Int) (rules : BusinessRules) (h : e ≤ s) :
    validateAgainstBusinessRules (some s) (some e) rules =
      .err "end_time must be after start_time" := by
  unfold validateAgainstBusinessRules
  simp [h]

/-- Witness for C7 at a concrete input: an interval ending exactly at
its start is rejected under the default rules. -/
theorem validate_rejects_end_le_start_witness :
    validateAgainstBusinessRules (some 378000000) (some 378000000)
      (getDefaultBusinessRules 0) = .err "end_time must be after start_time" :=
  validate_rejects_end_le_start 378000000 378000000 (getDefaultBusinessRules 0)
    (le_refl _)

lemma weekday_dayStart (tz d h : Int) (h0 : 0 ≤ h) (h24 : h < 24) :
    weekday tz (d * 86400000 + h * 3600000 - tz * 60000) = weekdayOfDay d := by
  unfold weekday localDay localMs weekdayOfDay
  omega

/-- C6: with weekends disallowed, `validateAgainstBusinessRules`
rejects every interval whose start falls on a Saturday (weekday 6) or
Sunday (weekday 7) in the rules' timezone, and `generateSlots` returns
the empty sequence for every date falling on a Saturday or Sunday. -/
theorem weekend_closed :
    (∀ (rules : BusinessRules) (s e : Int), rules.allow_weekends = false →
      weekday rules.timezone s = 6 ∨ weekday rules.timezone s = 7 →
      validateAgainstBusinessRules (some s) (some e) rules ≠ .ok) ∧
    (∀ (timezone date duration_minutes : Int) (events : List CalEvent),
      weekdayOfDay date = 6 ∨ weekdayOfDay date = 7 →
      generateSlots timezone date duration_minutes events = []) := by
  constructor
  · intro rules s e hw hwe
    unfold validateAgainstBusinessRules
    by_cases h1 : e ≤ s
    · simp [h1]
    · rcases hwe with h | h <;> simp [h1, hw, h]
  · intro tz d dur evs hwd
    unfold generateSlots
    simp only [getDefaultBusinessRules]
    rw [weekday_dayStart tz d 9 (by norm_num) (by norm_num)]
    rcases hwd with h | h <;> simp [h]

/-- Witness for C6 at concrete inputs: Saturday 1970-01-03 (epoch day
2) — a 10:00–10:30 interval on it is rejected and the day generates no
slots. -/
theorem weekend_closed_witness :
    validateAgainstBusinessRules (some 208800000) (some 210600000)
        (getDefaultBusinessRules 0) ≠ .ok ∧
      generateSlots 0 2 30 [] = [] :=
  ⟨weekend_closed.1 (getDefaultBusinessRules 0) 208800000 210600000 rfl
      (Or.inl (by decide)),
    weekend_closed.2 0 2 30 [] (Or.inl (by decide))⟩

/-- C9: the weekend test of `validateAgainstBusinessRules` examines
only the start timestamp's weekday, and the business-hours test only
the wall-clock hour/minute components of start and end.  Hence with
weekends disallowed an interval starting Monday–Friday is never
rejected with the weekend error even when it ends on a weekend, and
any interval (including multi-day ones) whose start hour-of-day is at
least `start_hour` and whose end hour-of-day is at most `end_hour` is
never rejected with the business-hours error. -/
theorem validate_checks_start_weekday_and_wallclock_hours :
    (∀ (rules : BusinessRules) (s e : Int), rules.allow_weekends = false →
      1 ≤ weekday rules.timezone s → weekday rules.timezone s ≤ 5 →
      validateAgainstBusinessRules (some s) (some e) rules ≠ .err "Closed on weekends") ∧
    (∀ (rules : BusinessRules) (s e : Int),
      rules.start_hour * 60 ≤ hourOf rules.timezone s * 60 + minuteOf rules.timezone s →
      hourOf rules.timezone e * 60 + minuteOf rules.timezone e ≤ rules.end_hour * 60 →
      validateAgainstBusinessRules (some s) (some e) rules ≠
        .err "Outside business hours") := by
  constructor
  · intro rules s e _ h1 h5
    unfold validateAgainstBusinessRules
    repeat' split
    all_goals simp_all
    omega
  · intro rules s e hs he
    unfold validateAgainstBusinessRules
    repeat' split
    all_goals simp_all
    omega

/-- Witness for C9 at a concrete input: a Friday 10:00 to Saturday
16:00 interval (start weekday 5, end on a Saturday, spanning two days,
hour components within 9–17) is rejected with neither the weekend
error nor the business-hours error. -/
theorem validate_checks_start_weekday_and_wallclock_hours_witness :
    validateAgainstBusinessRules (some 727200000) (some 835200000)
        (getDefaultBusinessRules 0) ≠ .err "Closed on weekends" ∧
      validateAgainstBusinessRules (some 727200000) (some 835200000)
        (getDefaultBusinessRules 0) ≠ .err "Outside business hours" :=
  ⟨validate_checks_start_weekday_and_wallclock_hours.1 (getDefaultBusinessRules 0)
      727200000 835200000 rfl (by decide) (by decide),
    validate_checks_start_weekday_and_wallclock_hours.2 (getDefaultBusinessRules 0)
      727200000 835200000 (by decide) (by decide)⟩

lemma slotsLoop_validates (rules : BusinessRules) (busy : List (Int × Int))
    (dayEndMs durMs stepMs : Int) :
    ∀ (fuel : Nat) (t : Int) (s : Slot),
      s ∈ slotsLoop rules busy dayEndMs durMs stepMs fuel t →
      validateAgainstBusinessRules (some s.start_time) (some s.end_time) rules = .ok := by
  intro fuel
  induction fuel with
  | zero => intro t s h; simp [slotsLoop] at h
  | succ n ih =>
    intro t s h
    rw [slotsLoop] at h
    split at h
    · split at h
      · exact ih _ _ h
      · next heq =>
        split at h
        · exact ih _ _ h
        · rcases List.mem_cons.mp h with rfl | h'
          · simpa using heq
          · exact ih _ _ h'
    · simp at h

/-- C5: every slot emitted by `generateSlots` passes
`validateAgainstBusinessRules` under the same (default) business rules
on exactly that slot interval — no emitted slot would be rejected by
validation. -/
theorem generateSlots_validate (timezone date duration_minutes : Int)
    (events : List CalEvent) (s : Slot)
    (h : s ∈ generateSlots timezone date duration_minutes events) :
    validateAgainstBusinessRules (some s.start_time) (some s.end_time)
      (getDefaultBusinessRules timezone) = .ok := by
  unfold generateSlots at h
  dsimp only at h
  split at h
  · simp at h
  · exact slotsLoop_validates _ _ _ _ _ _ _ _ h

/-- Witness for C5 at a concrete input: the 09:00–09:30 slot generated
for Monday 1970-01-05 (epoch day 4, UTC zone) re-validates. -/
theorem generateSlots_validate_witness :
    (⟨378000000, 379800000⟩ : Slot) ∈ generateSlots 0 4 30 [] ∧
      validateAgainstBusinessRules (some 378000000) (some 379800000)
        (getDefaultBusinessRules 0) = .ok :=
  ⟨by decide, generateSlots_validate 0 4 30 [] ⟨378000000, 379800000⟩ (by decide)⟩

/-- Concrete fixture: a booked appointment of tenant `c1` over Monday
1970-01-05 09:00–09:30 UTC, holding calendar event 0. -/
def fxBooked : Appointment :=
  { id := 0, client_id := "c1", customer_name := none, customer_email := none,
    customer_phone := none, start_time := 378000000, end_time := 379800000,
    timezone := 0, status := "booked", google_calendar_id := "primary",
    google_event_id := some 0, previous_appointment_id := none,
    title := "Appointment", notes := none }

/-- Concrete fixture: a store holding just `fxBooked`. -/
def fxDb : Db := { appointments := [fxBooked], tool_idempotency := [], nextApptId := 1 }

/-- Concrete fixture: an empty store. -/
def fxEmptyDb : Db := { appointments := [], tool_idempotency := [], nextApptId := 0 }

/-- Concrete fixture: an empty, fully functional calendar. -/
def fxCal : Calendar :=
  { events := [], nextEventId := 0, insertFails := false, deleteFails := false }

/-- Concrete fixture: a well-formed book request by tenant `c1` for
Monday 1970-01-05 09:00–09:30 UTC. -/
def fxBookReq : BookReq :=
  { client_id := none, start_time := some 378000000, end_time := some 379800000,
    timezone := 0, title := "Appointment", customer_name := none,
    customer_email := none, customer_phone := none, notes := none,
    idempotency_key := some "call-1" }

/-- C4: in every run of the book route the store conflict check
precedes any calendar call — the only possible call traces are the
four prefixes of [store check, free/busy, insert] — and whenever the
guards up to it pass and the store check reports an overlap, the
request is rejected 409 with no calendar call at all and no state
change. -/
theorem book_store_check_before_calendar (cid : String) (req : BookReq) (db : Db)
    (cal : Calendar) :
    ((book cid req db cal).trace = [] ∨
      (book cid req db cal).trace = [.storeOverlap] ∨
      (book cid req db cal).trace = [.storeOverlap, .calFreeBusy] ∨
      (book cid req db cal).trace = [.storeOverlap, .calFreeBusy, .calInsert]) ∧
    (∀ (s e : Int) (k : String), req.start_time = some s → req.end_time = some e →
      req.idempotency_key = some k →
      enforceClientIdMatch cid req.client_id = true →
      getIdempotentResponse db cid "book-appointment" (some k) = none →
      validateAgainstBusinessRules (some s) (some e)
        (getDefaultBusinessRules req.timezone) = .ok →
      hasOverlapInSupabase db cid s e none = true →
      (book cid req db cal).resp = .err 409 "Time slot already booked" ∧
        (book cid req db cal).trace = [.storeOverlap] ∧
        (book cid req db cal).db = db ∧ (book cid req db cal).cal = cal) := by
  constructor
  · unfold book
    repeat' (first | split | dsimp only)
    all_goals simp
  · intro s e k hs he hk henf hfresh hval hov
    unfold book
    rw [henf, hs, he, hk]
    simp only [hfresh, hval, hov]
    simp

/-- Witness for C4 at a concrete input: booking an interval that
overlaps the already-booked `fxBooked` row is rejected 409 with only
the store check in the trace. -/
theorem book_store_check_before_calendar_witness :
    (book "c1" fxBookReq fxDb fxCal).resp = .err 409 "Time slot already booked" ∧
      (book "c1" fxBookReq fxDb fxCal).trace = [.storeOverlap] ∧
      (book "c1" fxBookReq fxDb fxCal).db = fxDb ∧
      (book "c1" fxBookReq fxDb fxCal).cal = fxCal :=
  (book_store_check_before_calendar "c1" fxBookReq fxDb fxCal).2 378000000 379800000
    "call-1" rfl rfl rfl (by decide) (by decide) (by decide) (by decide)

/-- C8 (amended): a mutating tool call (book, cancel, reschedule)
invoked without an idempotency key is rejected with HTTP 400
`Missing idempotency_key` — after the earlier request-shape guards —
and the operation does not execute: no store change, no calendar
change, no conflict-check or calendar call.  (The idempotency helpers
themselves skip idempotency for an absent key, but the mutating routes
refuse such requests before reaching them.) -/
theorem missing_idempotency_key_rejected :
    (∀ (cid : String) (req : BookReq) (db : Db) (cal : Calendar),
      enforceClientIdMatch cid req.client_id = true →
      req.start_time ≠ none → req.end_time ≠ none → req.idempotency_key = none →
      book cid req db cal =
        { resp := .err 400 "Missing idempotency_key", db := db, cal := cal,
          trace := [] }) ∧
    (∀ (cid : String) (req : CancelReq) (db : Db) (cal : Calendar),
      enforceClientIdMatch cid req.client_id = true →
      req.appointment_id ≠ none → req.idempotency_key = none →
      cancel cid req db cal =
        { resp := .err 400 "Missing idempotency_key", db := db, cal := cal,
          trace := [] }) ∧
    (∀ (cid : String) (req : ReschedReq) (db : Db) (cal : Calendar),
      enforceClientIdMatch cid req.client_id = true →
      req.appointment_id ≠ none → req.new_start_time ≠ none → req.new_end_time ≠ none →
      req.idempotency_key = none →
      reschedule cid req db cal =
        { resp := .err 400 "Missing idempotency_key", db := db, cal := cal,
          trace := [] }) := by
  refine ⟨?_, ?_, ?_⟩
  · intro cid req db cal henf h1 h2 hk
    obtain ⟨s, hs⟩ := Option.ne_none_iff_exists'.mp h1
    obtain ⟨e, he⟩ := Option.ne_none_iff_exists'.mp h2
    unfold book
    rw [henf, hs, he, hk]
    simp
  · intro cid req db cal henf h1 hk
    obtain ⟨aid, ha⟩ := Option.ne_none_iff_exists'.mp h1
    unfold cancel
    rw [henf, ha, hk]
    simp
  · intro cid req db cal henf h1 h2 h3 hk
    obtain ⟨aid, ha⟩ := Option.ne_none_iff_exists'.mp h1
    obtain ⟨s, hs⟩ := Option.ne_none_iff_exists'.mp h2
    obtain ⟨e, he⟩ := Option.ne_none_iff_exists'.mp h3
    unfold reschedule
    rw [henf, ha, hs, he, hk]
    simp

/-- Counterexample for C8 as stated: a book call without an
idempotency key does NOT execute — it is refused with 400 and performs
no store row insert, no calendar call, and no calendar change,
contradicting "idempotency is skipped entirely and the operation
always executes". -/
theorem missing_idempotency_key_rejected_counterexample :
    book "c1"
        { client_id := none, start_time := some 378000000, end_time := some 379800000,
          timezone := 0, title := "Appointment", customer_name := none,
          customer_email := none, customer_phone := none, notes := none,
          idempotency_key := none } fxEmptyDb fxCal =
      { resp := .err 400 "Missing idempotency_key", db := fxEmptyDb, cal := fxCal,
        trace := [] } := by
  decide

/-- Witness for the amended C8 at concrete inputs: all three mutating
routes refuse a key-less request and leave the state untouched. -/
theorem missing_idempotency_key_rejected_witness :
    book "c1"
        { client_id := none, start_time := some 378000000, end_time := some 379800000,
          timezone := 0, title := "Appointment", customer_name := none,
          customer_email := none, customer_phone := none, notes := none,
          idempotency_key := none } fxDb fxCal =
      { resp := .err 400 "Missing idempotency_key", db := fxDb, cal := fxCal,
        trace := [] } ∧
    cancel "c1" { client_id := none, appointment_id := some 0, idempotency_key := none }
        fxDb fxCal =
      { resp := .err 400 "Missing idempotency_key", db := fxDb, cal := fxCal,
        trace := [] } ∧
    reschedule "c1"
        { client_id := none, appointment_id := some 0, new_start_time := some 385200000,
          new_end_time := some 387000000, timezone := 0, new_title := none,
          notes := none, idempotency_key := none } fxDb fxCal =
      { resp := .err 400 "Missing idempotency_key", db := fxDb, cal := fxCal,
        trace := [] } :=
  ⟨missing_idempotency_key_rejected.1 "c1" _ fxDb fxCal rfl (by simp) (by simp) rfl,
    missing_idempotency_key_rejected.2.1 "c1" _ fxDb fxCal rfl (by simp) rfl,
    missing_idempotency_key_rejected.2.2 "c1" _ fxDb fxCal rfl (by simp) (by simp)
      (by simp) rfl⟩

lemma enforce_false (cid v : String) (hne : v ≠ "") (hnc : v ≠ cid) :
    enforceClientIdMatch cid (some v) = false := by
  simp [enforceClientIdMatch, hne, hnc]

/-- C10 (amended): a tool request whose body carries a NON-EMPTY
`client_id` differing from the token-resolved client id is rejected
403 by every tool route, with no store or calendar change and no
external call; in every other case the body `client_id` is inert — the
routes behave exactly as for a body without it, every operation being
scoped by the token-resolved client id.  (An empty-string body
`client_id` is falsy in the source's truthiness test and escapes the
403 check.) -/
theorem client_id_body_checked :
    ((∀ (cid v : String) (req : BookReq) (db : Db) (cal : Calendar),
      req.client_id = some v → v ≠ "" → v ≠ cid →
      book cid req db cal =
        { resp := .err 403 "client_id does not match token", db := db, cal := cal,
          trace := [] }) ∧
     (∀ (cid : String) (req : BookReq) (db : Db) (cal : Calendar),
      book cid { req with client_id := some cid } db cal =
        book cid { req with client_id := none } db cal)) ∧
    ((∀ (cid v : String) (req : CancelReq) (db : Db) (cal : Calendar),
      req.client_id = some v → v ≠ "" → v ≠ cid →
      cancel cid req db cal =
        { resp := .err 403 "client_id does not match token", db := db, cal := cal,
          trace := [] }) ∧
     (∀ (cid : String) (req : CancelReq) (db : Db) (cal : Calendar),
      cancel cid { req with client_id := some cid } db cal =
        cancel cid { req with client_id := none } db cal)) ∧
    ((∀ (cid v : String) (req : ReschedReq) (db : Db) (cal : Calendar),
      req.client_id = some v → v ≠ "" → v ≠ cid →
      reschedule cid req db cal =
        { resp := .err 403 "client_id does not match token", db := db, cal := cal,
          trace := [] }) ∧
     (∀ (cid : String) (req : ReschedReq) (db : Db) (cal : Calendar),
      reschedule cid { req with client_id := some cid } db cal =
        reschedule cid { req with client_id := none } db cal)) ∧
    ((∀ (cid v : String) (req : AvailReq) (db : Db) (cal : Calendar),
      req.client_id = some v → v ≠ "" → v ≠ cid →
      checkAvailability cid req db cal =
        { resp := .err 403 "client_id does not match token", db := db, cal := cal,
          trace := [] }) ∧
     (∀ (cid : String) (req : AvailReq) (db : Db) (cal : Calendar),
      checkAvailability cid { req with client_id := some cid } db cal =
        checkAvailability cid { req with client_id := none } db cal)) ∧
    ((∀ (cid v : String) (req : FindReq) (now : Int) (db : Db) (cal : Calendar),
      req.client_id = some v → v ≠ "" → v ≠ cid →
      findAppointment cid req now db cal =
        { resp := .err 403 "client_id does not match token", db := db, cal := cal,
          trace := [] }) ∧
     (∀ (cid : String) (req : FindReq) (now : Int) (db : Db) (cal : Calendar),
      findAppointment cid { req with client_id := some cid } now db cal =
        findAppointment cid { req with client_id := none } now db cal)) := by
  have henf : ∀ cid : String, enforceClientIdMatch cid (some cid) = true := by
    intro cid; simp [enforceClientIdMatch]
  refine ⟨⟨?_, ?_⟩, ⟨?_, ?_⟩, ⟨?_, ?_⟩, ⟨?_, ?_⟩, ⟨?_, ?_⟩⟩
  · intro cid v req db cal hbc hne hnc
    unfold book
    rw [hbc, enforce_false cid v hne hnc]
    simp
  · intro cid req db cal
    unfold book
    rw [show ({ req with client_id := some cid } : BookReq).client_id = some cid from rfl,
      show ({ req with client_id := none } : BookReq).client_id = none from rfl,
      henf cid]
    rfl
  · intro cid v req db cal hbc hne hnc
    unfold cancel
    rw [hbc, enforce_false cid v hne hnc]
    simp
  · intro cid req db cal
    unfold cancel
    rw [show ({ req with client_id := some cid } : CancelReq).client_id = some cid from
      rfl, show ({ req with client_id := none } : CancelReq).client_id = none from rfl,
      henf cid]
    rfl
  · intro cid v req db cal hbc hne hnc
    unfold reschedule
    rw [hbc, enforce_false cid v hne hnc]
    simp
  · intro cid req db cal
    unfold reschedule
    rw [show ({ req with client_id := some cid } : ReschedReq).client_id = some cid from
      rfl, show ({ req with client_id := none } : ReschedReq).client_id = none from rfl,
      henf cid]
    rfl
  · intro cid v req db cal hbc hne hnc
    unfold checkAvailability
    rw [hbc, enforce_false cid v hne hnc]
    simp
  · intro cid req db cal
    unfold checkAvailability
    rw [show ({ req with client_id := some cid } : AvailReq).client_id = some cid from
      rfl, show ({ req with client_id := none } : AvailReq).client_id = none from rfl,
      henf cid]
    rfl
  · intro cid v req now db cal hbc hne hnc
    unfold findAppointment
    rw [hbc, enforce_false cid v hne hnc]
    simp
  · intro cid req now db cal
    unfold findAppointment
    rw [show ({ req with client_id := some cid } : FindReq).client_id = some cid from
      rfl, show ({ req with client_id := none } : FindReq).client_id = none from rfl,
      henf cid]
    rfl

/-- Counterexample for C10 as stated: a book request whose body
`client_id` is the empty string — which differs from the token client
id `c1` — is NOT rejected with 403: the empty string is falsy, so the
mismatch check is skipped and the request proceeds to the next guard
(here, 400 for the missing times). -/
theorem client_id_body_checked_counterexample :
    book "c1"
        { client_id := some "", start_time := none, end_time := none, timezone := 0,
          title := "Appointment", customer_name := none, customer_email := none,
          customer_phone := none, notes := none, idempotency_key := some "call-1" }
        fxEmptyDb fxCal =
      { resp := .err 400 "Missing start_time/end_time", db := fxEmptyDb, cal := fxCal,
        trace := [] } ∧
    (book "c1"
        { client_id := some "", start_time := none, end_time := none, timezone := 0,
          title := "Appointment", customer_name := none, customer_email := none,
          customer_phone := none, notes := none, idempotency_key := some "call-1" }
        fxEmptyDb fxCal).resp ≠ .err 403 "client_id does not match token" := by
  constructor
  · decide
  · decide

/-- Witness for the amended C10 at concrete inputs: a non-empty
mismatching body `client_id` is rejected 403 on the book route, and a
matching body `client_id` behaves exactly like an absent one. -/
theorem client_id_body_checked_witness :
    book "c1" { fxBookReq with client_id := some "c2" } fxDb fxCal =
      { resp := .err 403 "client_id does not match token", db := fxDb, cal := fxCal,
        trace := [] } ∧
    book "c1" { fxBookReq with client_id := some "c1" } fxDb fxCal =
      book "c1" { fxBookReq with client_id := none } fxDb fxCal :=
  ⟨client_id_body_checked.1.1 "c1" "c2" _ fxDb fxCal rfl (by decide) (by decide),
    client_id_body_checked.1.2 "c1" fxBookReq fxDb fxCal⟩

/-- Concrete fixture: a calendar whose delete call fails (network/API
error). -/
def fxCalDeleteFails : Calendar :=
  { events := [], nextEventId := 5, insertFails := false, deleteFails := true }

/-- C3: when a cancel call reaches the calendar delete (appointment
found, it has an external event id) and that delete fails, the whole
operation fails with the catch-all 500 and nothing is persisted: the
store is unchanged — the appointment row keeps its `booked` status —
and no idempotency record is written. -/
theorem cancel_delete_failure_no_partial_state (cid : String) (req : CancelReq)
    (db : Db) (cal : Calendar) (aid : Nat) (k : String) (appt : Appointment)
    (geid : Nat)
    (henf : enforceClientIdMatch cid req.client_id = true)
    (ha : req.appointment_id = some aid)
    (hk : req.idempotency_key = some k)
    (hfresh : getIdempotentResponse db cid "cancel-appointment" (some k) = none)
    (hsel : selectAppointment db aid cid = some appt)
    (hg : appt.google_event_id = some geid)
    (hbooked : appt.status = "booked")
    (hfail : cal.deleteFails = true) :
    cancel cid req db cal =
      { resp := .err 500 "calendar delete failed", db := db, cal := cal,
        trace := [.calDelete] } ∧
    selectAppointment (cancel cid req db cal).db aid cid = some appt ∧
    appt.status = "booked" ∧
    getIdempotentResponse (cancel cid req db cal).db cid "cancel-appointment"
      (some k) = none := by
  have hmain : cancel cid req db cal =
      { resp := .err 500 "calendar delete failed", db := db, cal := cal,
        trace := [.calDelete] } := by
    unfold cancel
    rw [henf, ha, hk]
    simp only [hfresh, hsel, hg]
    unfold calendarDeleteEvent
    rw [hfail]
    simp
  refine ⟨hmain, ?_, hbooked, ?_⟩
  · rw [hmain]; exact hsel
  · rw [hmain]; exact hfresh

/-- Witness for C3 at concrete inputs: cancelling the booked `fxBooked`
appointment against a calendar whose delete fails returns 500 and
leaves the store (and the row's `booked` status) untouched. -/
theorem cancel_delete_failure_no_partial_state_witness :
    cancel "c1" (⟨none, some 0, some "call-2"⟩ : CancelReq) fxDb fxCalDeleteFails =
      { resp := .err 500 "calendar delete failed", db := fxDb, cal := fxCalDeleteFails,
        trace := [.calDelete] } ∧
    selectAppointment (cancel "c1" (⟨none, some 0, some "call-2"⟩ : CancelReq) fxDb
        fxCalDeleteFails).db 0 "c1" = some fxBooked ∧
    fxBooked.status = "booked" ∧
    getIdempotentResponse (cancel "c1" (⟨none, some 0, some "call-2"⟩ : CancelReq) fxDb
        fxCalDeleteFails).db "c1" "cancel-appointment" (some "call-2") = none :=
  cancel_delete_failure_no_partial_state "c1" _ fxDb fxCalDeleteFails 0 "call-2"
    fxBooked 0 rfl rfl rfl (by decide) (by decide) (by decide) (by decide) rfl

/-- C1 (amended): after a first successful book under a fresh
idempotency key, a second book call by the same tenant with the same
key and any different payload that still passes the pre-idempotency
request guards (client-id match, start/end times present) returns the
first call's stored response unchanged, performs no conflict-check or
calendar call and no state change, and the two calls together produce
exactly one appointment row and exactly one (hence at most one)
external calendar event.  (A second payload failing those guards —
e.g. missing start_time — is answered 400 before the idempotency
lookup; see the counterexample.) -/
theorem book_idempotent_replay (cid : String) (req1 req2 : BookReq) (db : Db)
    (cal : Calendar) (s1 e1 s2 e2 : Int) (k : String)
    (henf1 : enforceClientIdMatch cid req1.client_id = true)
    (h1s : req1.start_time = some s1) (h1e : req1.end_time = some e1)
    (hk1 : req1.idempotency_key = some k)
    (hfresh : getIdempotentResponse db cid "book-appointment" (some k) = none)
    (hval : validateAgainstBusinessRules (some s1) (some e1)
      (getDefaultBusinessRules req1.timezone) = .ok)
    (hov : hasOverlapInSupabase db cid s1 e1 none = false)
    (hfree : isFreeInGoogleCalendar cal s1 e1 = true)
    (hins : cal.insertFails = false)
    (henf2 : enforceClientIdMatch cid req2.client_id = true)
    (h2s : req2.start_time = some s2) (h2e : req2.end_time = some e2)
    (hk2 : req2.idempotency_key = some k) :
    (book cid req1 db cal).resp = .bookOk db.nextApptId cal.nextEventId s1 e1 ∧
    (book cid req2 (book cid req1 db cal).db (book cid req1 db cal).cal).resp =
      (book cid req1 db cal).resp ∧
    (book cid req2 (book cid req1 db cal).db (book cid req1 db cal).cal).db =
      (book cid req1 db cal).db ∧
    (book cid req2 (book cid req1 db cal).db (book cid req1 db cal).cal).cal =
      (book cid req1 db cal).cal ∧
    (book cid req2 (book cid req1 db cal).db (book cid req1 db cal).cal).trace = [] ∧
    (book cid req2 (book cid req1 db cal).db
      (book cid req1 db cal).cal).db.appointments.length =
      db.appointments.length + 1 ∧
    (book cid req2 (book cid req1 db cal).db
      (book cid req1 db cal).cal).cal.events.length =
      cal.events.length + 1 := by
  simp [book, henf1, henf2, h1s, h1e, hk1, h2s, h2e, hk2, hfresh, hval, hov, hfree,
    hins, calendarInsertEvent, getIdem_save, insertAppointment, saveIdem_appointments]

/-- Counterexample for C1 as stated: after a first successful book, a
second call with the same tenant and key but a payload missing
start_time/end_time is rejected 400 by the request-shape guard, which
runs BEFORE the idempotency lookup — it does not return the stored
response.  (It still causes no re-execution.) -/
theorem book_idempotent_replay_counterexample :
    (book "c1" fxBookReq fxEmptyDb fxCal).resp = .bookOk 0 0 378000000 379800000 ∧
    (book "c1"
        { client_id := none, start_time := none, end_time := none, timezone := 0,
          title := "Appointment", customer_name := none, customer_email := none,
          customer_phone := none, notes := none, idempotency_key := some "call-1" }
        (book "c1" fxBookReq fxEmptyDb fxCal).db
        (book "c1" fxBookReq fxEmptyDb fxCal).cal).resp =
      .err 400 "Missing start_time/end_time" ∧
    (book "c1"
        { client_id := none, start_time := none, end_time := none, timezone := 0,
          title := "Appointment", customer_name := none, customer_email := none,
          customer_phone := none, notes := none, idempotency_key := some "call-1" }
        (book "c1" fxBookReq fxEmptyDb fxCal).db
        (book "c1" fxBookReq fxEmptyDb fxCal).cal).resp ≠
      (book "c1" fxBookReq fxEmptyDb fxCal).resp := by
  refine ⟨by decide, by decide, by decide⟩

/-- Concrete fixture: a second, different but well-formed book payload
reusing the same idempotency key as `fxBookReq`. -/
def fxBookReq2 : BookReq :=
  { fxBookReq with
      start_time := some 464400000
      end_time := some 466200000
      title := "Other" }

/-- Witness for the amended C1 at concrete inputs: a successful book of
Monday 09:00–09:30 followed by a replay under the same key with a
different (well-formed) payload. -/
theorem book_idempotent_replay_witness :
    (book "c1" fxBookReq fxEmptyDb fxCal).resp = .bookOk 0 0 378000000 379800000 ∧
    (book "c1" fxBookReq2
      (book "c1" fxBookReq fxEmptyDb fxCal).db
      (book "c1" fxBookReq fxEmptyDb fxCal).cal).resp =
      (book "c1" fxBookReq fxEmptyDb fxCal).resp ∧
    (book "c1" fxBookReq2
      (book "c1" fxBookReq fxEmptyDb fxCal).db
      (book "c1" fxBookReq fxEmptyDb fxCal).cal).db =
      (book "c1" fxBookReq fxEmptyDb fxCal).db ∧
    (book "c1" fxBookReq2
      (book "c1" fxBookReq fxEmptyDb fxCal).db
      (book "c1" fxBookReq fxEmptyDb fxCal).cal).cal =
      (book "c1" fxBookReq fxEmptyDb fxCal).cal ∧
    (book "c1" fxBookReq2
      (book "c1" fxBookReq fxEmptyDb fxCal).db
      (book "c1" fxBookReq fxEmptyDb fxCal).cal).trace = [] ∧
    (book "c1" fxBookReq2
      (book "c1" fxBookReq fxEmptyDb fxCal).db
      (book "c1" fxBookReq fxEmptyDb fxCal).cal).db.appointments.length =
      fxEmptyDb.appointments.length + 1 ∧
    (book "c1" fxBookReq2
      (book "c1" fxBookReq fxEmptyDb fxCal).db
      (book "c1" fxBookReq fxEmptyDb fxCal).cal).cal.events.length =
      fxCal.events.length + 1 :=
  book_idempotent_replay "c1" fxBookReq fxBookReq2
    fxEmptyDb fxCal 378000000 379800000 464400000 466200000 "call-1"
    rfl rfl rfl rfl rfl (by decide) (by decide) (by decide) rfl rfl rfl rfl rfl

lemma filter_prev_booked_nil (l : List Appointment) (o x : Nat) (st : String)
    (h : ∀ a ∈ l, a.previous_appointment_id ≠ some o) :
    (l.map (fun a => if a.id == x then { a with status := st } else a)).filter
      (fun a => a.previous_appointment_id == some o && a.status == "booked") = [] := by
  induction l with
  | nil => rfl
  | cons a as ih =>
    have ha := h a (List.mem_cons_self _ _)
    have hpa : (if a.id == x then { a with status := st } else a).previous_appointment_id
        = a.previous_appointment_id := by split <;> rfl
    have hb : (a.previous_appointment_id == some o) = false := by
      simpa using ha
    simp only [List.map_cons, List.filter_cons, hpa, hb, Bool.false_and,
      Bool.false_eq_true, if_false]
    exact ih (fun b hb => h b (List.mem_cons_of_mem _ hb))

/-- C2 (amended): after every successful reschedule — provided the
store is well-formed and no existing appointment already references
the old appointment as its `previous_appointment_id` (i.e. the old
appointment has not been rescheduled before; without this proviso the
source creates a second such row, see the counterexample) — the old
appointment's status is `rescheduled` and can never transition back to
`booked` under any further sequence of tool calls; exactly one
appointment with status `booked` and `previous_appointment_id` equal
to the old id exists (the newly inserted row); the old external
calendar event has been deleted while the newly created one exists;
and the old event's delete appears in the call trace only after both
the store conflict check (excluding the old row's id) and the calendar
free/busy check. -/
theorem reschedule_invariant (cid : String) (req : ReschedReq) (db : Db)
    (cal : Calendar) (aid : Nat) (ns ne : Int) (k : String) (oldAppt : Appointment)
    (hwf : db.wf)
    (henf : enforceClientIdMatch cid req.client_id = true)
    (ha : req.appointment_id = some aid)
    (hns : req.new_start_time = some ns) (hne : req.new_end_time = some ne)
    (hk : req.idempotency_key = some k)
    (hfresh : getIdempotentResponse db cid "reschedule-appointment" (some k) = none)
    (hval : validateAgainstBusinessRules (some ns) (some ne)
      (getDefaultBusinessRules req.timezone) = .ok)
    (hsel : selectAppointment db aid cid = some oldAppt)
    (hov : hasOverlapInSupabase db cid ns ne (some oldAppt.id) = false)
    (hfree : isFreeInGoogleCalendar cal ns ne = true)
    (hdel : cal.deleteFails = false) (hins : cal.insertFails = false)
    (hgeid : ∀ g, oldAppt.google_event_id = some g → g < cal.nextEventId)
    (hprev : ∀ a ∈ db.appointments, a.previous_appointment_id ≠ some oldAppt.id) :
    (reschedule cid req db cal).resp =
      .reschedOk oldAppt.id db.nextApptId cal.nextEventId ∧
    (∀ a ∈ (reschedule cid req db cal).db.appointments, a.id = oldAppt.id →
      a.status = "rescheduled") ∧
    (∃ a ∈ (reschedule cid req db cal).db.appointments, a.id = oldAppt.id) ∧
    ((reschedule cid req db cal).db.appointments.filter (fun a =>
        a.previous_appointment_id == some oldAppt.id && a.status == "booked")).map
      (fun a => a.id) = [db.nextApptId] ∧
    (∀ g, oldAppt.google_event_id = some g →
      ∀ ev ∈ (reschedule cid req db cal).cal.events, ev.id ≠ g) ∧
    (∃ ev ∈ (reschedule cid req db cal).cal.events, ev.id = cal.nextEventId) ∧
    ((reschedule cid req db cal).trace =
        [.storeOverlap, .calFreeBusy, .calDelete, .calInsert] ∨
      (reschedule cid req db cal).trace = [.storeOverlap, .calFreeBusy, .calInsert]) ∧
    (∀ ops : List Op,
      ∀ a ∈ (runOps ops ((reschedule cid req db cal).db,
        (reschedule cid req db cal).cal)).1.appointments,
      a.id = oldAppt.id → a.status ≠ "booked") := by
  obtain ⟨holdMem, holdId, holdCid⟩ := selectAppointment_spec db aid cid oldAppt hsel
  have hbound := hwf.1 oldAppt holdMem
  rcases hgcase : oldAppt.google_event_id with _ | g
  all_goals {
    first
    | (have hshape :
          (reschedule cid req db cal).resp =
            .reschedOk oldAppt.id db.nextApptId cal.nextEventId ∧
          (reschedule cid req db cal).db.appointments =
            db.appointments.map (fun a =>
              if a.id == oldAppt.id then { a with status := "rescheduled" } else a) ++
            [{ id := db.nextApptId, client_id := cid,
               customer_name := oldAppt.customer_name,
               customer_email := oldAppt.customer_email,
               customer_phone := oldAppt.customer_phone, start_time := ns,
               end_time := ne, timezone := req.timezone, status := "booked",
               google_calendar_id := "primary",
               google_event_id := some cal.nextEventId,
               previous_appointment_id := some oldAppt.id,
               title := rescheduledTitle req.new_title oldAppt.title,
               notes := req.notes }] ∧
          (reschedule cid req db cal).db.nextApptId = db.nextApptId + 1 ∧
          (reschedule cid req db cal).cal.events =
            cal.events ++
            [{ id := cal.nextEventId, status := "confirmed", start_ms := ns,
               end_ms := ne }] ∧
          (reschedule cid req db cal).trace =
            [.storeOverlap, .calFreeBusy, .calInsert] := by
        refine ⟨?_, ?_, ?_, ?_, ?_⟩ <;>
          simp [reschedule, henf, ha, hns, hne, hk, hfresh, hval, hsel, hov, hfree,
            calendarDeleteEvent, calendarInsertEvent, hdel, hins, hgcase,
            insertAppointment, updateAppointmentStatus, saveIdem_appointments,
            saveIdem_nextApptId])
    | (have hshape :
          (reschedule cid req db cal).resp =
            .reschedOk oldAppt.id db.nextApptId cal.nextEventId ∧
          (reschedule cid req db cal).db.appointments =
            db.appointments.map (fun a =>
              if a.id == oldAppt.id then { a with status := "rescheduled" } else a) ++
            [{ id := db.nextApptId, client_id := cid,
               customer_name := oldAppt.customer_name,
               customer_email := oldAppt.customer_email,
               customer_phone := oldAppt.customer_phone, start_time := ns,
               end_time := ne, timezone := req.timezone, status := "booked",
               google_calendar_id := "primary",
               google_event_id := some cal.nextEventId,
               previous_appointment_id := some oldAppt.id,
               title := rescheduledTitle req.new_title oldAppt.title,
               notes := req.notes }] ∧
          (reschedule cid req db cal).db.nextApptId = db.nextApptId + 1 ∧
          (reschedule cid req db cal).cal.events =
            cal.events.filter (fun ev => ev.id != g) ++
            [{ id := cal.nextEventId, status := "confirmed", start_ms := ns,
               end_ms := ne }] ∧
          (reschedule cid req db cal).trace =
            [.storeOverlap, .calFreeBusy, .calDelete, .calInsert] := by
        refine ⟨?_, ?_, ?_, ?_, ?_⟩ <;>
          simp [reschedule, henf, ha, hns, hne, hk, hfresh, hval, hsel, hov, hfree,
            calendarDeleteEvent, calendarInsertEvent, hdel, hins, hgcase,
            insertAppointment, updateAppointmentStatus, saveIdem_appointments,
            saveIdem_nextApptId])
    obtain ⟨hresp, happ, hnextA, hev, htr⟩ := hshape
    have hC2 : ∀ a ∈ (reschedule cid req db cal).db.appointments,
        a.id = oldAppt.id → a.status = "rescheduled" := by
      intro a hmem hid
      rw [happ] at hmem
      rcases List.mem_append.mp hmem with hm | hm
      · obtain ⟨b, hb, rfl⟩ := List.mem_map.mp hm
        by_cases hbx : (b.id == oldAppt.id) = true
        · rw [if_pos hbx]
        · rw [if_neg hbx] at hid
          exact absurd (beq_iff_eq.mpr hid) hbx
      · simp only [List.mem_singleton] at hm
        subst hm
        exfalso
        simp only at hid
        omega
    have hC3 : ∃ a ∈ (reschedule cid req db cal).db.appointments,
        a.id = oldAppt.id := by
      refine ⟨{ oldAppt with status := "rescheduled" }, ?_, rfl⟩
      rw [happ]
      refine List.mem_append_left _ ?_
      have hmm := List.mem_map_of_mem (fun a =>
        if a.id == oldAppt.id then { a with status := "rescheduled" } else a) holdMem
      simpa using hmm
    have hC4 : ((reschedule cid req db cal).db.appointments.filter (fun a =>
        a.previous_appointment_id == some oldAppt.id && a.status == "booked")).map
        (fun a => a.id) = [db.nextApptId] := by
      rw [happ, List.filter_append,
        filter_prev_booked_nil db.appointments oldAppt.id oldAppt.id "rescheduled" hprev]
      simp
    have hP : NotRebooked oldAppt.id (reschedule cid req db cal).db := by
      refine ⟨fun a hmem hid => ?_, ?_⟩
      · rw [hC2 a hmem hid]; decide
      · rw [hnextA]; omega
    have hC8 : ∀ ops : List Op,
        ∀ a ∈ (runOps ops ((reschedule cid req db cal).db,
          (reschedule cid req db cal).cal)).1.appointments,
        a.id = oldAppt.id → a.status ≠ "booked" :=
      fun ops => (NotRebooked_runOps oldAppt.id ops _ _ hP).1
    refine ⟨hresp, hC2, hC3, hC4, ?_, ?_, ?_, hC8⟩
    · intro g' hg' ev hmem
      first
      | exact Option.noConfusion hg'
      | (injection hg' with hgg
         subst hgg
         rw [hev] at hmem
         rcases List.mem_append.mp hmem with hm | hm
         · have := (List.mem_filter.mp hm).2
           simpa using this
         · simp only [List.mem_singleton] at hm
           subst hm
           have := hgeid g hgcase
           simp only
           omega)
    · rw [hev]
      exact ⟨_, List.mem_append_right _ (List.mem_singleton.mpr rfl), rfl⟩
    · first
      | exact Or.inl htr
      | exact Or.inr htr
  }

/-- Concrete fixture: the store state right after an earlier reschedule
of appointment 0 — row 0 is `rescheduled` and row 1 is the `booked`
replacement pointing back at it. -/
def fxResDb : Db :=
  { appointments :=
      [{ fxBooked with status := "rescheduled" },
       { fxBooked with
           id := 1
           start_time := 381600000
           end_time := 383400000
           google_event_id := some 1
           previous_appointment_id := some 0 }]
    tool_idempotency := []
    nextApptId := 2 }

/-- Concrete fixture: a reschedule request moving appointment 0 to
Monday 11:00–11:30 UTC. -/
def fxReschedReq : ReschedReq :=
  { client_id := none, appointment_id := some 0, new_start_time := some 385200000,
    new_end_time := some 387000000, timezone := 0, new_title := none, notes := none,
    idempotency_key := some "call-4" }

/-- Concrete fixture: a calendar holding only the old appointment's
event 0. -/
def fxResCal : Calendar :=
  { events := [⟨0, "confirmed", 378000000, 379800000⟩]
    nextEventId := 1
    insertFails := false
    deleteFails := false }

/-- Counterexample for C2 as stated: rescheduling an appointment that
was itself already produced as the target of an earlier reschedule
chain — here appointment 0, already `rescheduled` once with row 1
pointing at it — succeeds (the source never checks the loaded row's
status), after which TWO appointments have status `booked` and
`previous_appointment_id` = 0, not exactly one. -/
theorem reschedule_invariant_counterexample :
    (reschedule "c1" fxReschedReq fxResDb fxCal).resp = .reschedOk 0 2 0 ∧
    ((reschedule "c1" fxReschedReq fxResDb fxCal).db.appointments.filter (fun a =>
      a.previous_appointment_id == some 0 && a.status == "booked")).length = 2 := by
  refine ⟨by decide, by decide⟩

/-- Witness for the amended C2 at concrete inputs: a successful
reschedule of the booked appointment 0 to Monday 11:00–11:30. -/
theorem reschedule_invariant_witness :
    (reschedule "c1" fxReschedReq fxDb fxResCal).resp = .reschedOk 0 1 1 ∧
    (∀ a ∈ (reschedule "c1" fxReschedReq fxDb fxResCal).db.appointments,
      a.id = 0 → a.status = "rescheduled") ∧
    (∃ a ∈ (reschedule "c1" fxReschedReq fxDb fxResCal).db.appointments, a.id = 0) ∧
    ((reschedule "c1" fxReschedReq fxDb fxResCal).db.appointments.filter (fun a =>
        a.previous_appointment_id == some 0 && a.status == "booked")).map
      (fun a => a.id) = [1] ∧
    (∀ g, fxBooked.google_event_id = some g →
      ∀ ev ∈ (reschedule "c1" fxReschedReq fxDb fxResCal).cal.events, ev.id ≠ g) ∧
    (∃ ev ∈ (reschedule "c1" fxReschedReq fxDb fxResCal).cal.events, ev.id = 1) ∧
    ((reschedule "c1" fxReschedReq fxDb fxResCal).trace =
        [.storeOverlap, .calFreeBusy, .calDelete, .calInsert] ∨
      (reschedule "c1" fxReschedReq fxDb fxResCal).trace =
        [.storeOverlap, .calFreeBusy, .calInsert]) ∧
    (∀ ops : List Op,
      ∀ a ∈ (runOps ops ((reschedule "c1" fxReschedReq fxDb fxResCal).db,
        (reschedule "c1" fxReschedReq fxDb fxResCal).cal)).1.appointments,
      a.id = 0 → a.status ≠ "booked") :=
  reschedule_invariant "c1" fxReschedReq fxDb fxResCal 0 385200000 387000000 "call-4"
    fxBooked ⟨by decide, by decide⟩ rfl rfl rfl rfl rfl rfl (by decide) (by decide)
    (by decide) (by decide) rfl rfl
    (by intro g hg; injection hg with h; subst h; decide)
    (by decide)
